import Mathlib

/-!
Verification of the PRGR launch-monitor perception core against its
natural-language specification.  The definitions below are a shallow
embedding of the C++ source: floating-point arithmetic is modelled over
`ℚ`, machine integers over `Int`/`Nat`, and external OpenCV primitives
(HoughCircles, pointPolygonTest, the Kalman filter's predict step, the
calibration transforms) are taken as explicit function parameters, since
their outputs are inputs to the control logic under verification.
-/

namespace PRGR

/-! ## Ball-zone state machine (src/src/CameraCalibration.cpp) -/

/-- The `BallZoneState` enum of `CameraCalibration.h`. -/
inductive BallZoneState where
  | NO_BALL
  | BALL_OUT_OF_ZONE
  | BALL_IN_ZONE_MOVING
  | BALL_IN_ZONE_STABLE
  | READY
  | IMPACT_DETECTED
  | POST_IMPACT
deriving DecidableEq, Repr

/-- A `cv::Point2f`, with coordinates over `ℚ`. -/
structure Point2f where
  x : ℚ
  y : ℚ
deriving DecidableEq, Repr

/-- `m_stabilityHistorySize = 15` (const in `CameraCalibration.h`). -/
def stabilityHistorySize : Nat := 15

/-- `m_stabilityThreshold = 2.0` (const in `CameraCalibration.h`). -/
def stabilityThreshold : ℚ := 2

/-- `m_readyRequiredMs = 1000` (const in `CameraCalibration.h`). -/
def readyRequiredMs : Int := 1000

/-- The mutable members of `CameraCalibration` that the live-tracking
pipeline (`detectBallLive`, `updateBallZoneState`, `resetTracking`)
reads and writes. -/
structure CamState where
  liveTrackingInitialized : Bool
  kalmanInitialized : Bool
  trackingConfidence : Int
  missedFrames : Int
  smoothedBallX : ℚ
  smoothedBallY : ℚ
  ballVelocityX : ℚ
  ballVelocityY : ℚ
  lastBallRadius : ℚ
  ballZoneState : BallZoneState
  ballPositionHistory : List Point2f
  stableStartTime : Int
  impactTime : Int
  isArmed : Bool
deriving DecidableEq, Repr

/-- Squared Euclidean distance between two points. -/
def distSq (p q : Point2f) : ℚ :=
  (p.x - q.x) * (p.x - q.x) + (p.y - q.y) * (p.y - q.y)

/-- `CameraCalibration::isBallStable`.  The source takes the maximum of
`sqrt(dx*dx+dy*dy)` over the history (measured from the oldest entry)
and compares it with `m_stabilityThreshold`; since the threshold `2.0`
is nonnegative, that comparison is equivalent to comparing every squared
distance with the squared threshold, which is what we do to stay inside
`ℚ`. -/
def isBallStable (history : List Point2f) : Bool :=
  if history.length < stabilityHistorySize then
    false
  else
    let firstPos := history.headD ⟨0, 0⟩
    history.all fun p =>
      distSq p firstPos < stabilityThreshold * stabilityThreshold

/-- The position-history update at the top of
`CameraCalibration::updateBallZoneState`: push the new position when the
ball is detected in-zone (dropping the oldest entry past the bound);
clear the history otherwise.  The head of the list is the front of the
source's `std::deque` (its oldest entry). -/
def updateHistory (history : List Point2f) (ballDetected inZone : Bool)
    (pos : Point2f) : List Point2f :=
  if ballDetected && inZone then
    let pushed := history ++ [pos]
    if stabilityHistorySize < pushed.length then pushed.tail else pushed
  else
    []

/-- `CameraCalibration::updateBallZoneState`.  `currentTime` stands for
`QDateTime::currentMSecsSinceEpoch()`. -/
def updateBallZoneState (s : CamState) (ballDetected inZone : Bool)
    (pos : Point2f) (currentTime : Int) : CamState :=
  let hist := updateHistory s.ballPositionHistory ballDetected inZone pos
  let s := { s with ballPositionHistory := hist }
  match s.ballZoneState with
  | .NO_BALL =>
      if ballDetected && inZone then
        { s with ballZoneState := .BALL_IN_ZONE_MOVING }
      else if ballDetected && !inZone then
        { s with ballZoneState := .BALL_OUT_OF_ZONE }
      else s
  | .BALL_OUT_OF_ZONE =>
      if !ballDetected then
        { s with ballZoneState := .NO_BALL }
      else if inZone then
        { s with ballZoneState := .BALL_IN_ZONE_MOVING }
      else s
  | .BALL_IN_ZONE_MOVING =>
      if !ballDetected || !inZone then
        { s with ballZoneState :=
            if !ballDetected then .NO_BALL else .BALL_OUT_OF_ZONE }
      else if isBallStable hist then
        { s with ballZoneState := .BALL_IN_ZONE_STABLE,
                 stableStartTime := currentTime }
      else s
  | .BALL_IN_ZONE_STABLE =>
      if !ballDetected || !inZone then
        { s with ballZoneState :=
            if !ballDetected then .NO_BALL else .BALL_OUT_OF_ZONE }
      else if !(isBallStable hist) then
        { s with ballZoneState := .BALL_IN_ZONE_MOVING }
      else if readyRequiredMs ≤ currentTime - s.stableStartTime then
        { s with ballZoneState := .READY, isArmed := true }
      else s
  | .READY =>
      if !ballDetected || !inZone then
        { s with ballZoneState := .IMPACT_DETECTED, impactTime := currentTime }
      else s
  | .IMPACT_DETECTED =>
      { s with ballZoneState := .POST_IMPACT }
  | .POST_IMPACT => s

/-- `CameraCalibration::resetTracking`. -/
def resetTracking (s : CamState) : CamState :=
  { s with liveTrackingInitialized := false,
           kalmanInitialized := false,
           trackingConfidence := 0,
           missedFrames := 0,
           ballZoneState := .NO_BALL,
           isArmed := false,
           ballPositionHistory := [] }

/-! ## Live ball tracking (`CameraCalibration::detectBallLive`)

The vision front end of `detectBallLive` (Gaussian blur, CLAHE, background
subtraction, `cv::HoughCircles`, and the per-circle zone/size/shape
filter loop) is pixel processing over OpenCV; its net outcome for the
tracking logic is one of three cases, which we take as the per-frame
input: `HoughCircles` returned no circles at all, circles were returned
but none survived the zone/size/shape filters, or a best circle was
selected.  The zone-membership test (`cv::pointPolygonTest` against the
configured corners) and the Kalman filter's `predict()` output are
likewise passed in as parameters. -/

/-- Per-frame outcome of the circle-detection front end. -/
inductive FrameScan where
  | noCircles
  | noneInZone
  | found (x y r : ℚ)
deriving DecidableEq, Repr

/-- The per-frame result map built by `detectBallLive`. -/
structure DetectResult where
  detected : Bool
  x : ℚ
  y : ℚ
  radius : ℚ
  inZone : Bool
deriving DecidableEq, Repr

/-- State-update and result logic of `CameraCalibration::detectBallLive`,
given the outcome of the circle-detection front end.  `inZoneTest`
stands for the `m_isZoneDefined && pointPolygonTest ≥ 0` check and
`kalmanPred` for `m_kalmanFilter.predict()`.  The debug-visualization,
video-recording and logging blocks touch no tracking state and are
omitted.  On the `found` path the source finally calls
`updateBallZoneState` with the raw (unsmoothed) ball position; on both
miss paths it returns before reaching that call. -/
def detectBallLive (inZoneTest : ℚ → ℚ → Bool) (kalmanPred : ℚ × ℚ)
    (s : CamState) (scan : FrameScan) (currentTime : Int) :
    CamState × DetectResult :=
  match scan with
  | .noCircles =>
      let s := { s with missedFrames := s.missedFrames + 1 }
      if s.kalmanInitialized && decide (s.missedFrames < 10) &&
          decide (3 < s.trackingConfidence) then
        let s := { s with smoothedBallX := kalmanPred.1,
                          smoothedBallY := kalmanPred.2 }
        (s, ⟨true, s.smoothedBallX, s.smoothedBallY, s.lastBallRadius,
             inZoneTest s.smoothedBallX s.smoothedBallY⟩)
      else
        let s :=
          if 15 < s.missedFrames then
            { s with liveTrackingInitialized := false,
                     kalmanInitialized := false,
                     trackingConfidence := 0 }
          else s
        (s, ⟨false, 0, 0, 0, false⟩)
  | .noneInZone =>
      let s := { s with missedFrames := s.missedFrames + 1 }
      if s.liveTrackingInitialized && decide (s.missedFrames < 60) then
        let predictedX := s.smoothedBallX + s.ballVelocityX * (s.missedFrames : ℚ)
        let predictedY := s.smoothedBallY + s.ballVelocityY * (s.missedFrames : ℚ)
        (s, ⟨true, predictedX, predictedY, s.lastBallRadius,
             inZoneTest predictedX predictedY⟩)
      else
        (s, ⟨false, 0, 0, 0, false⟩)
  | .found ballX ballY ballRadius =>
      let s :=
        if s.liveTrackingInitialized then
          let dx := ballX - s.smoothedBallX
          let dy := ballY - s.smoothedBallY
          { s with
              ballVelocityX := (3 / 10) * dx + (7 / 10) * s.ballVelocityX,
              ballVelocityY := (3 / 10) * dy + (7 / 10) * s.ballVelocityY,
              smoothedBallX := (2 / 5) * ballX + (3 / 5) * s.smoothedBallX,
              smoothedBallY := (2 / 5) * ballY + (3 / 5) * s.smoothedBallY }
        else
          { s with smoothedBallX := ballX, smoothedBallY := ballY }
      let s := { s with lastBallRadius := ballRadius }
      let s :=
        if !s.liveTrackingInitialized then
          { s with liveTrackingInitialized := true,
                   trackingConfidence := 10,
                   ballVelocityX := 0, ballVelocityY := 0 }
        else
          { s with trackingConfidence := 10 }
      let s := { s with missedFrames := 0 }
      let inZone := inZoneTest s.smoothedBallX s.smoothedBallY
      let result : DetectResult :=
        ⟨true, s.smoothedBallX, s.smoothedBallY, ballRadius, inZone⟩
      let s := updateBallZoneState s true inZone ⟨ballX, ballY⟩ currentTime
      (s, result)

/-- Feeding `n` consecutive frames in which circles were found but none
survived the in-zone filters (the occlusion scenario of the spec's
tracker property). -/
def feedNoneInZone (inZoneTest : ℚ → ℚ → Bool) (kalmanPred : ℚ × ℚ)
    (currentTime : Int) (s : CamState) : Nat → CamState
  | 0 => s
  | n + 1 =>
      (detectBallLive inZoneTest kalmanPred
        (feedNoneInZone inZoneTest kalmanPred currentTime s n)
        .noneInZone currentTime).1

/-! ## Doppler trigger (src/src/KLD2Manager.cpp) -/

/-- The ball-mode branch of `KLD2Manager::processSpeed` (taken when
`m_triggerMode == "ball"`).  The state is the `m_ballDetected` latch;
the returned pair is the new latch and whether `impactDetected` was
emitted on this reading.  `threshold` is
`static_cast<int>(m_minBallTriggerSpeed)`. -/
def processSpeedBall (threshold : Int) (latch : Bool) (recedingSpeed : Int) :
    Bool × Bool :=
  if threshold ≤ recedingSpeed then
    if !latch then (true, true) else (latch, false)
  else
    if latch then (false, false) else (latch, false)

/-- Running the ball-mode trigger over an ordered sequence of receding
(ball) speed readings: the list of per-reading `impactDetected`
emissions, and the final latch value. -/
def runBallTrigger (threshold : Int) (latch : Bool) :
    List Int → List Bool × Bool
  | [] => ([], latch)
  | speed :: rest =>
      let step := processSpeedBall threshold latch speed
      let tail := runBallTrigger threshold step.1 rest
      (step.2 :: tail.1, tail.2)

/-- Whether a reading is at or above the trigger threshold. -/
def aboveThr (threshold speed : Int) : Bool := decide (threshold ≤ speed)

/-! ## Candidate generation (src/cpp_module/fast_detection.cpp) -/

/-- A circle returned by `cv::HoughCircles` (`cv::Vec3f`). -/
structure Circle where
  x : ℚ
  y : ℚ
  r : ℚ
deriving DecidableEq, Repr

/-- The `param2` sensitivity schedule of `detect_ball`
(`std::vector<int> param2_values = {10, 8, 12, 15, 7, 6, 5}`). -/
def param2_values : List Int := [10, 8, 12, 15, 7, 6, 5]

/-- One step list of the sweep: try each schedule entry in order and
stop at the first non-empty `HoughCircles` result. -/
def houghSweepGo (hough : Int → List Circle) : List Int → List Circle
  | [] => []
  | p :: rest =>
      let circles := hough p
      if circles.isEmpty then houghSweepGo hough rest else circles

/-- The sensitivity-schedule loop of `detect_ball`: `circles` is cleared
before every attempt, so after the loop it holds the first non-empty
result, or the empty list when every attempt came back empty.
`hough` abstracts `cv::HoughCircles` on the preprocessed frame as a
function of `param2` (all other arguments are fixed). -/
def houghSweep (hough : Int → List Circle) : List Circle :=
  houghSweepGo hough param2_values

/-- Modelled from the spec (the claim's wording, for comparison with
`houghSweep`): run the schedule, stop as soon as the candidate count
lands inside the ideal range 1–4, and otherwise keep the first
non-empty result as fallback. -/
def houghSweepIdealRange (hough : Int → List Circle) :
    List Int → Option (List Circle) → List Circle
  | [], fallback => fallback.getD []
  | p :: rest, fallback =>
      let circles := hough p
      if 1 ≤ circles.length ∧ circles.length ≤ 4 then circles
      else
        houghSweepIdealRange hough rest
          (match fallback with
           | some f => some f
           | none => if circles.isEmpty then none else some circles)

/-- `cvRound`: round to nearest, ties to even (the rounding mode OpenCV
uses on x86/ARM). -/
def cvRound (q : ℚ) : Int :=
  let f := ⌊q⌋
  if q - f < 1 / 2 then f
  else if 1 / 2 < q - f then f + 1
  else if f % 2 = 0 then f else f + 1

/-- The `used_centers` membership test of `detect_ball`'s concentric
circle removal: is `(x, y)` within the 10-pixel per-axis tolerance of
some already-kept center. -/
def isDuplicateCenter (used : List (Int × Int)) (x y : Int) : Bool :=
  used.any fun c =>
    decide ((x - c.1).natAbs < 10) && decide ((y - c.2).natAbs < 10)

/-- The concentric-circle removal loop of `detect_ball`. -/
def removeConcentricGo : List Circle → List (Int × Int) → List Circle
  | [], _ => []
  | c :: rest, used =>
      let x := cvRound c.x
      let y := cvRound c.y
      if isDuplicateCenter used x y then
        removeConcentricGo rest used
      else
        c :: removeConcentricGo rest (used ++ [(x, y)])

/-- De-duplication pass of `detect_ball` (`filtered_circles`). -/
def removeConcentric (circles : List Circle) : List Circle :=
  removeConcentricGo circles []

/-- Two circles' rounded centers are within the merge tolerance of each
other (both axis distances under 10 px). -/
def withinTol (a b : Circle) : Prop :=
  (cvRound a.x - cvRound b.x).natAbs < 10 ∧
  (cvRound a.y - cvRound b.y).natAbs < 10

instance (a b : Circle) : Decidable (withinTol a b) := by
  unfold withinTol; infer_instance

/-- `detect_impact` of fast_detection.cpp: directional impact test on
the configured down-range axis. -/
def detect_impact (prev_x prev_y curr_x curr_y threshold axis direction : Int) :
    Bool :=
  let movement :=
    if axis = 0 then (curr_x - prev_x) * direction
    else (curr_y - prev_y) * direction
  decide (threshold < movement)

/-! ## Exposure controller (src/src/AutoExposureController.cpp)

Floats are modelled over `ℚ`; `static_cast<int>` on a nonnegative value
truncates toward zero.  A frame is an abstract pixel intensity function
(the `stride` addressing of the raw byte buffer is absorbed into it);
a null frame pointer is `Option.none`.  The brightness-history ring is
a fixed array of `HISTORY_SIZE = 5` entries together with the write
index and fill count, as in the source. -/

/-- Truncation toward zero, as `static_cast<int>` on a float. -/
def truncQ (q : ℚ) : Int := Int.tdiv q.num (q.den : Int)

/-- `AutoExposureController::HISTORY_SIZE`. -/
def HISTORY_SIZE : Nat := 5

/-- `AutoExposureController::BrightnessStats`. -/
structure BrightnessStats where
  mean : ℚ
  maxBrightness : ℚ
  pixels : Int
  valid : Bool
deriving DecidableEq, Repr

/-- `AutoExposureController::AdjustmentResult`. -/
structure AdjustmentResult where
  adjusted : Bool
  shutter_us : Int
  gain : ℚ
  brightness : ℚ
  reason : String
deriving DecidableEq, Repr

/-- The member state of `AutoExposureController`. -/
structure AEState where
  zone_center_x : Int
  zone_center_y : Int
  zone_radius : Int
  zone_defined : Bool
  target_min : ℚ
  target_max : ℚ
  target_ideal : ℚ
  min_shutter : Int
  max_shutter : Int
  min_gain : ℚ
  max_gain : ℚ
  current_shutter : Int
  current_gain : ℚ
  auto_enabled : Bool
  adjustment_speed : ℚ
  min_adjustment_interval : ℚ
  brightness_history : List ℚ
  history_count : Nat
  history_index : Nat
  last_adjustment_time : ℚ
deriving DecidableEq, Repr

/-- The `AutoExposureController` constructor state. -/
def aeInitial : AEState :=
  { zone_center_x := 0, zone_center_y := 0, zone_radius := 0,
    zone_defined := false,
    target_min := 160, target_max := 200, target_ideal := 180,
    min_shutter := 500, max_shutter := 1500,
    min_gain := 1, max_gain := 16,
    current_shutter := 800, current_gain := 10,
    auto_enabled := true,
    adjustment_speed := 3 / 10,
    min_adjustment_interval := 1 / 10,
    brightness_history := List.replicate HISTORY_SIZE 0,
    history_count := 0, history_index := 0,
    last_adjustment_time := 0 }

/-- Sum of `f` over the integer range `[lo, hi)`. -/
def rangeSum (lo hi : Int) (f : Int → ℚ) : ℚ :=
  (((List.range (hi - lo).toNat).map fun i => f (lo + i)).foldl (· + ·) 0)

/-- Maximum of `f` over `[lo, hi)`, starting from `0` (the source's
`uint8_t max_val = 0`). -/
def rangeMax (lo hi : Int) (f : Int → ℚ) : ℚ :=
  (((List.range (hi - lo).toNat).map fun i => f (lo + i)).foldl max 0)

/-- `AutoExposureController::measureBrightnessRect`: measure mean and
peak intensity on the frame rectangle of half-size `1.5 × zone_radius`
around the zone center, clipped to the frame. -/
def measureBrightnessRect (s : AEState) (pix : Int → Int → ℚ)
    (width height : Int) : BrightnessStats :=
  let box_size := Int.tdiv (3 * s.zone_radius) 2
  let x1 := max 0 (s.zone_center_x - box_size)
  let x2 := min width (s.zone_center_x + box_size)
  let y1 := max 0 (s.zone_center_y - box_size)
  let y2 := min height (s.zone_center_y + box_size)
  if x2 ≤ x1 ∨ y2 ≤ y1 then ⟨0, 0, 0, false⟩
  else
    let total := rangeSum y1 y2 fun y => rangeSum x1 x2 fun x => pix y x
    let maxv := rangeMax y1 y2 fun y => rangeMax x1 x2 fun x => pix y x
    let pixel_count := (x2 - x1) * (y2 - y1)
    if 0 < pixel_count then
      ⟨total / (pixel_count : ℚ), maxv, pixel_count, true⟩
    else ⟨0, 0, 0, false⟩

/-- The zone-defaulting step of `AutoExposureController::measureBrightness`:
when no zone is set, the zone members are overwritten with the frame
center region. -/
def zoneDefaulted (s : AEState) (width height : Int) : AEState :=
  if !s.zone_defined then
    { s with zone_center_x := Int.tdiv width 2,
             zone_center_y := Int.tdiv height 2,
             zone_radius := Int.tdiv (min width height) 4 }
  else s

/-- The measurement rectangle of `measureBrightnessRect`, clipped to the
frame, contains zero pixels. -/
def degenerateRegion (s : AEState) (width height : Int) : Prop :=
  let box_size := Int.tdiv (3 * s.zone_radius) 2
  min width (s.zone_center_x + box_size) ≤ max 0 (s.zone_center_x - box_size) ∨
  min height (s.zone_center_y + box_size) ≤ max 0 (s.zone_center_y - box_size)

instance (s : AEState) (width height : Int) :
    Decidable (degenerateRegion s width height) := by
  unfold degenerateRegion; infer_instance

/-- `AutoExposureController::measureBrightness`: reject a null frame,
default the zone to the frame center when none is set (this mutates the
zone members, as in the source), then measure the rectangle. -/
def measureBrightness (s : AEState) (frame : Option (Int → Int → ℚ))
    (width height : Int) : AEState × BrightnessStats :=
  match frame with
  | none => (s, ⟨0, 0, 0, false⟩)
  | some pix =>
      let s := zoneDefaulted s width height
      (s, measureBrightnessRect s pix width height)

/-- `AutoExposureController::addToHistory`. -/
def addToHistory (s : AEState) (brightness : ℚ) : AEState :=
  { s with
      brightness_history := s.brightness_history.set s.history_index brightness,
      history_index := (s.history_index + 1) % HISTORY_SIZE,
      history_count :=
        if s.history_count < HISTORY_SIZE then s.history_count + 1
        else s.history_count }

/-- `AutoExposureController::getSmoothedBrightness`. -/
def getSmoothedBrightness (s : AEState) : ℚ :=
  if s.history_count = 0 then 0
  else
    ((s.brightness_history.take s.history_count).foldl (· + ·) 0) /
      (s.history_count : ℚ)

/-- `AutoExposureController::calculateAdjustment`: returns
`(new_shutter, new_gain, reason)`. -/
def calculateAdjustment (s : AEState) (current_brightness : ℚ) :
    Int × ℚ × String :=
  if s.target_min ≤ current_brightness ∧ current_brightness ≤ s.target_max then
    (s.current_shutter, s.current_gain, "within_target")
  else
    let error := s.target_ideal - current_brightness
    let error_percent := error / s.target_ideal
    if current_brightness < s.target_min then
      if s.current_gain < s.max_gain then
        let gain_increase := |error_percent| * s.adjustment_speed * 4
        (s.current_shutter, min s.max_gain (s.current_gain * (1 + gain_increase)),
         "increased_gain")
      else if s.current_shutter < s.max_shutter then
        let shutter_increase := |error_percent| * s.adjustment_speed * 200
        (min s.max_shutter (s.current_shutter + truncQ shutter_increase),
         s.current_gain, "increased_shutter")
      else
        (s.current_shutter, s.current_gain, "at_max_exposure")
    else
      if s.min_gain < s.current_gain then
        let gain_decrease := |error_percent| * s.adjustment_speed * (1 / 2)
        (s.current_shutter, max s.min_gain (s.current_gain * (1 - gain_decrease)),
         "decreased_gain")
      else if s.min_shutter < s.current_shutter then
        let shutter_decrease := |error_percent| * s.adjustment_speed * 100
        (max s.min_shutter (s.current_shutter - truncQ shutter_decrease),
         s.current_gain, "decreased_shutter")
      else
        (s.current_shutter, s.current_gain, "at_min_exposure")

/-- `AutoExposureController::update`.  The steady-clock reading is the
explicit input `now`; elapsed time is `now - last_adjustment_time`. -/
def aeUpdate (s : AEState) (frame : Option (Int → Int → ℚ))
    (width height : Int) (force : Bool) (now : ℚ) :
    AEState × AdjustmentResult :=
  let result0 : AdjustmentResult :=
    ⟨false, s.current_shutter, s.current_gain, 0, "no_update"⟩
  if !s.auto_enabled && !force then
    (s, { result0 with reason := "manual_mode" })
  else if !force && decide (now - s.last_adjustment_time < s.min_adjustment_interval) then
    (s, { result0 with reason := "rate_limited" })
  else
    let measured := measureBrightness s frame width height
    let s := measured.1
    let stats := measured.2
    if !stats.valid then
      (s, { result0 with reason := "invalid_measurement" })
    else
      let s := addToHistory s stats.mean
      let smoothed := getSmoothedBrightness s
      let adj := calculateAdjustment s smoothed
      let changed : Bool :=
        decide (adj.1 ≠ s.current_shutter) || decide (adj.2.1 ≠ s.current_gain)
      let s :=
        if changed then
          { s with current_shutter := adj.1, current_gain := adj.2.1,
                   last_adjustment_time := now }
        else s
      (s, ⟨changed, s.current_shutter, s.current_gain, smoothed, adj.2.2⟩)

/-! ## Coordinate transforms (src/src/CameraCalibration.cpp)

The one-time calibration solves (intrinsic matrix, distortion, ground
homography, pose) are external collaborators; each is abstracted as a
function, and the calibration flags gate their use exactly as in the
source. -/

/-- Calibration data of `CameraCalibration` relevant to the coordinate
transforms. -/
structure Calib where
  isIntrinsicCalibrated : Bool
  isExtrinsicCalibrated : Bool
  undistort : ℚ × ℚ → ℚ × ℚ
  homography : ℚ × ℚ → ℚ × ℚ
  project : ℚ × ℚ × ℚ → ℚ × ℚ

/-- `CameraCalibration::undistortPoint`. -/
def undistortPoint (c : Calib) (p : ℚ × ℚ) : ℚ × ℚ :=
  if !c.isIntrinsicCalibrated then p else c.undistort p

/-- `CameraCalibration::pixelToWorld`. -/
def pixelToWorld (c : Calib) (pixel : ℚ × ℚ) (assumedHeight : ℚ) :
    ℚ × ℚ × ℚ :=
  if !c.isExtrinsicCalibrated then (0, 0, 0)
  else
    let undistorted := undistortPoint c pixel
    let dst := c.homography undistorted
    (dst.1, dst.2, assumedHeight)

/-- `CameraCalibration::worldToPixel`. -/
def worldToPixel (c : Calib) (worldPoint : ℚ × ℚ × ℚ) : ℚ × ℚ :=
  if !c.isExtrinsicCalibrated then (0, 0)
  else c.project worldPoint

/-! ## Concrete states used by witnesses -/

/-- A concrete armed state in `READY`, with a confident track. -/
def camReady : CamState :=
  { liveTrackingInitialized := true, kalmanInitialized := false,
    trackingConfidence := 10, missedFrames := 0,
    smoothedBallX := 100, smoothedBallY := 200,
    ballVelocityX := 2, ballVelocityY := -1, lastBallRadius := 8,
    ballZoneState := .READY, ballPositionHistory := [],
    stableStartTime := 0, impactTime := 0, isArmed := true }

/-- A concrete track whose confidence is at the ceiling, with no misses. -/
def camCeiling : CamState :=
  { liveTrackingInitialized := true, kalmanInitialized := false,
    trackingConfidence := 10, missedFrames := 0,
    smoothedBallX := 100, smoothedBallY := 200,
    ballVelocityX := 2, ballVelocityY := -1, lastBallRadius := 8,
    ballZoneState := .READY, ballPositionHistory := [],
    stableStartTime := 0, impactTime := 0, isArmed := true }

/-! ## Supporting lemmas -/

theorem updateBallZoneState_history (s : CamState) (ballDetected inZone : Bool)
    (pos : Point2f) (t : Int) :
    (updateBallZoneState s ballDetected inZone pos t).ballPositionHistory =
      updateHistory s.ballPositionHistory ballDetected inZone pos := by
  unfold updateBallZoneState
  cases h : s.ballZoneState <;> dsimp only <;> split_ifs <;> rfl

/-! ## C1: READY-state transitions -/

/-- C1: a step of `updateBallZoneState` that starts in `READY` remains in
`READY` exactly when the ball is still detected in-zone, and moves to
`IMPACT_DETECTED` the instant it is not; no other successor state is
possible from `READY`. -/
theorem ready_step_dichotomy (s : CamState) (ballDetected inZone : Bool)
    (pos : Point2f) (t : Int) (h : s.ballZoneState = .READY) :
    (updateBallZoneState s ballDetected inZone pos t).ballZoneState =
      (if ballDetected && inZone then .READY else .IMPACT_DETECTED) ∧
    ((updateBallZoneState s ballDetected inZone pos t).ballZoneState = .READY ∨
     (updateBallZoneState s ballDetected inZone pos t).ballZoneState =
       .IMPACT_DETECTED) := by
  constructor
  · unfold updateBallZoneState
    cases ballDetected <;> cases inZone <;> simp [h]
  · unfold updateBallZoneState
    cases ballDetected <;> cases inZone <;> simp [h]

/-- Witness for C1 at a concrete armed state: the ball vanishing from
the zone moves `READY` to `IMPACT_DETECTED`. -/
theorem ready_step_dichotomy_witness :
    (updateBallZoneState camReady false false ⟨0, 0⟩ 5).ballZoneState =
      BallZoneState.IMPACT_DETECTED := by
  have h := ready_step_dichotomy camReady false false ⟨0, 0⟩ 5 rfl
  simpa using h.1

/-! ## C3: stale-history invariant -/

/-- C3: after any `updateBallZoneState` call in which the ball is not
both detected and in-zone, the stability position history is empty, and
consequently `isBallStable` fails on the post-state history (it needs
`stabilityHistorySize = 15` contiguous in-zone samples), so stability
can never be declared from stale history. -/
theorem history_cleared_when_not_in_zone (s : CamState)
    (ballDetected inZone : Bool) (pos : Point2f) (t : Int)
    (h : ¬(ballDetected = true ∧ inZone = true)) :
    (updateBallZoneState s ballDetected inZone pos t).ballPositionHistory = [] ∧
    isBallStable
      (updateBallZoneState s ballDetected inZone pos t).ballPositionHistory =
      false := by
  have hh : (ballDetected && inZone) = false := by
    cases ballDetected <;> cases inZone <;> simp_all
  rw [updateBallZoneState_history]
  unfold updateHistory
  rw [hh]
  simp [isBallStable, stabilityHistorySize]

/-- Witness for C3: a frame with the ball detected but out of zone
clears a previously full history. -/
theorem history_cleared_when_not_in_zone_witness :
    (updateBallZoneState camReady true false ⟨0, 0⟩ 5).ballPositionHistory =
      [] := by
  have h := history_cleared_when_not_in_zone camReady true false ⟨0, 0⟩ 5
    (by simp)
  exact h.1

/-! ## C9: the armed flag -/

/-- C9: every `updateBallZoneState` step leaves the armed flag equal to
its old value, except that it is set (to true) exactly on the
`BALL_IN_ZONE_STABLE → READY` transition — the only transition that
enters `READY`.  In particular once armed the machine stays armed
through `IMPACT_DETECTED` and `POST_IMPACT`; only the external
`resetTracking` clears the flag. -/
theorem armed_set_only_on_ready_entry (s : CamState) (ballDetected inZone : Bool)
    (pos : Point2f) (t : Int) :
    (updateBallZoneState s ballDetected inZone pos t).isArmed =
      (s.isArmed ||
        (decide (s.ballZoneState = .BALL_IN_ZONE_STABLE) &&
         decide ((updateBallZoneState s ballDetected inZone pos t).ballZoneState =
           .READY))) ∧
    (resetTracking s).isArmed = false := by
  refine ⟨?_, rfl⟩
  unfold updateBallZoneState
  cases h : s.ballZoneState <;> dsimp only <;>
    first
      | (split_ifs <;> simp)
      | simp

/-! ## C2: occlusion handling in the temporal tracker -/

theorem detectBallLive_noneInZone_state (inZoneTest : ℚ → ℚ → Bool)
    (kalmanPred : ℚ × ℚ) (s : CamState) (t : Int) :
    (detectBallLive inZoneTest kalmanPred s .noneInZone t).1 =
      { s with missedFrames := s.missedFrames + 1 } := by
  unfold detectBallLive
  dsimp only
  split_ifs <;> rfl

theorem feedNoneInZone_state (inZoneTest : ℚ → ℚ → Bool) (kalmanPred : ℚ × ℚ)
    (t : Int) (s : CamState) (n : Nat) :
    feedNoneInZone inZoneTest kalmanPred t s n =
      { s with missedFrames := s.missedFrames + n } := by
  induction n with
  | zero => simp [feedNoneInZone]
  | succ n ih =>
      rw [feedNoneInZone, ih, detectBallLive_noneInZone_state]
      congr 1
      push_cast
      ring

/-- C2 counterexample: start from a track with confidence at the ceiling
(10), no misses, and tracking initialized, and feed consecutive frames
in which circles are present but none pass the in-zone filters.  Under
the claimed semantics, the first frame that takes the miss count over
the 60-frame prediction bound would drop the track (confidence → 0,
tracking-initialized flag cleared).  In the code, the 60th such frame
merely stops reporting predictions: confidence stays 10 and the flag
stays set, so the claim is false. -/
theorem tracker_drop_counterexample :
    (feedNoneInZone (fun _ _ => true) (0, 0) 0 camCeiling 60).trackingConfidence
        = 10 ∧
    (feedNoneInZone (fun _ _ => true) (0, 0) 0 camCeiling 60).liveTrackingInitialized
        = true ∧
    (detectBallLive (fun _ _ => true) (0, 0)
        (feedNoneInZone (fun _ _ => true) (0, 0) 0 camCeiling 59)
        .noneInZone 0).2.detected = false := by
  refine ⟨?_, ?_, ?_⟩
  · rw [feedNoneInZone_state]
    rfl
  · rw [feedNoneInZone_state]
    rfl
  · rw [feedNoneInZone_state]
    unfold detectBallLive
    dsimp only
    split_ifs with hc
    · exfalso
      simp [camCeiling] at hc
    · rfl

/-- C2 as amended: from a track with confidence at the ceiling and no
misses, consecutive frames whose circles all fail the in-zone filters
keep the track alive and report predicted positions extrapolated from
the last known velocity (`smoothed + velocity × missCount`) while the
consecutive-miss count stays under 60; from the 60th consecutive miss
onward the frame reports no detection — but the track is NOT dropped:
the confidence stays at its ceiling and the tracking-initialized flag
stays set.  (The full drop — confidence → 0 and flag cleared — happens
only on the separate no-circles-at-all path once the miss count exceeds
15.) -/
theorem tracker_occlusion_behavior (inZoneTest : ℚ → ℚ → Bool)
    (kalmanPred : ℚ × ℚ) (t : Int) (s : CamState)
    (hinit : s.liveTrackingInitialized = true)
    (hconf : s.trackingConfidence = 10)
    (hmiss : s.missedFrames = 0) (k : Nat) :
    ((detectBallLive inZoneTest kalmanPred
        (feedNoneInZone inZoneTest kalmanPred t s k) .noneInZone t).1.liveTrackingInitialized
          = true ∧
     (detectBallLive inZoneTest kalmanPred
        (feedNoneInZone inZoneTest kalmanPred t s k) .noneInZone t).1.trackingConfidence
          = 10) ∧
    (k + 1 < 60 →
      (detectBallLive inZoneTest kalmanPred
          (feedNoneInZone inZoneTest kalmanPred t s k) .noneInZone t).2.detected
            = true ∧
      (detectBallLive inZoneTest kalmanPred
          (feedNoneInZone inZoneTest kalmanPred t s k) .noneInZone t).2.x
            = s.smoothedBallX + s.ballVelocityX * ((k : ℚ) + 1) ∧
      (detectBallLive inZoneTest kalmanPred
          (feedNoneInZone inZoneTest kalmanPred t s k) .noneInZone t).2.y
            = s.smoothedBallY + s.ballVelocityY * ((k : ℚ) + 1)) ∧
    (60 ≤ k + 1 →
      (detectBallLive inZoneTest kalmanPred
          (feedNoneInZone inZoneTest kalmanPred t s k) .noneInZone t).2.detected
            = false) ∧
    (∀ s2 : CamState, s2.kalmanInitialized = false →
      15 < s2.missedFrames + 1 →
      (detectBallLive inZoneTest kalmanPred s2 .noCircles t).1.trackingConfidence
          = 0 ∧
      (detectBallLive inZoneTest kalmanPred s2 .noCircles t).1.liveTrackingInitialized
          = false) := by
  rw [feedNoneInZone_state]
  refine ⟨?_, ?_, ?_, ?_⟩
  rotate_right
  · intro s2 hk2 hm2
    unfold detectBallLive
    dsimp only
    rw [hk2]
    simp only [Bool.false_and, Bool.false_eq_true, if_false]
    rw [if_pos (by omega)]
    exact ⟨rfl, rfl⟩
  · rw [detectBallLive_noneInZone_state]
    exact ⟨hinit, hconf⟩
  · intro hk
    unfold detectBallLive
    dsimp only
    split_ifs with hc
    · refine ⟨rfl, ?_, ?_⟩ <;>
        · show _ + _ * ((_ : Int) : ℚ) = _
          simp only [hmiss]
          push_cast
          ring
    · exfalso
      simp only [hinit, Bool.true_and, decide_eq_true_eq] at hc
      omega
  · intro hk
    unfold detectBallLive
    dsimp only
    split_ifs with hc
    · exfalso
      simp only [hinit, Bool.true_and, decide_eq_true_eq] at hc
      omega
    · rfl

/-- Witness for the amended C2 theorem: three occlusion frames in, the
tracker still reports a velocity-extrapolated position. -/
theorem tracker_occlusion_behavior_witness :
    (detectBallLive (fun _ _ => true) (0, 0)
        (feedNoneInZone (fun _ _ => true) (0, 0) 7 camCeiling 2)
        .noneInZone 7).2.detected = true ∧
    (detectBallLive (fun _ _ => true) (0, 0)
        (feedNoneInZone (fun _ _ => true) (0, 0) 7 camCeiling 2)
        .noneInZone 7).2.x = 106 := by
  have h := tracker_occlusion_behavior (fun _ _ => true) (0, 0) 7 camCeiling
    rfl rfl rfl 2
  obtain ⟨-, h2, -⟩ := h
  have h3 := h2 (by norm_num)
  refine ⟨h3.1, ?_⟩
  rw [h3.2.1]
  norm_num [camCeiling]

/-! ## C4: ball-speed trigger latch -/

theorem processSpeedBall_eq (threshold : Int) (latch : Bool) (speed : Int) :
    processSpeedBall threshold latch speed =
      (aboveThr threshold speed, aboveThr threshold speed && !latch) := by
  cases latch <;> by_cases h : threshold ≤ speed <;>
    simp [processSpeedBall, aboveThr, h]

/-- C4: under the ball-speed trigger policy, the sequence of
`impactDetected` emissions over any sequence of receding-speed readings
is exactly the sequence of rising edges of the thresholded readings:
reading `i` emits an impact iff it is at/above the threshold while the
latch (initially `latch0`; after reading `i-1`, equal to that reading's
thresholded value) is off.  Hence the first above-threshold reading of
an episode emits exactly one event, further above-threshold readings
emit nothing, and the latch is released exactly when the receding speed
drops back under the threshold — so there is exactly one event per
above-threshold episode.  The final latch is the thresholded value of
the last reading (or the initial latch for an empty sequence). -/
theorem ballTrigger_rising_edges (threshold : Int) (latch0 : Bool)
    (speeds : List Int) :
    (runBallTrigger threshold latch0 speeds).1 =
      List.zipWith (fun prev cur => cur && !prev)
        (latch0 :: speeds.map (aboveThr threshold))
        (speeds.map (aboveThr threshold)) ∧
    (runBallTrigger threshold latch0 speeds).2 =
      (speeds.map (aboveThr threshold)).getLastD latch0 := by
  induction speeds generalizing latch0 with
  | nil => exact ⟨rfl, rfl⟩
  | cons speed rest ih =>
      have hstep := processSpeedBall_eq threshold latch0 speed
      constructor
      · show (processSpeedBall threshold latch0 speed).2 ::
            (runBallTrigger threshold (processSpeedBall threshold latch0 speed).1 rest).1 = _
        rw [hstep]
        simp only [List.map_cons, List.zipWith_cons_cons]
        exact congrArg _ ((ih (aboveThr threshold speed)).1)
      · show (runBallTrigger threshold (processSpeedBall threshold latch0 speed).1 rest).2 = _
        rw [hstep]
        simp only [List.map_cons, List.getLastD_cons]
        exact (ih (aboveThr threshold speed)).2

/-! ## C5: the candidate generator's sensitivity sweep -/

/-- A concrete `HoughCircles` outcome: five circles at the first
schedule entry (`param2 = 10`), two circles at the second (`param2 =
8`), nothing elsewhere. -/
def hough0 : Int → List Circle := fun p =>
  if p = 10 then
    [⟨0, 0, 30⟩, ⟨50, 0, 30⟩, ⟨100, 0, 30⟩, ⟨150, 0, 30⟩, ⟨200, 0, 30⟩]
  else if p = 8 then
    [⟨0, 0, 30⟩, ⟨50, 0, 30⟩]
  else []

/-- C5 counterexample.  The claim fails on the code in two ways: (1) the
sweep stops at the first *non-empty* result with no ideal-range check —
here the first attempt yields 5 candidates, outside the ideal range
1–4, and the code keeps them even though the very next attempt would
have yielded 2 (the spec-worded algorithm `houghSweepIdealRange` would
return those 2); (2) the schedule `{10, 8, 12, 15, 7, 6, 5}` is not
strictly decreasing (8 is followed by 12 and 15). -/
theorem houghSweep_counterexample :
    (houghSweep hough0).length = 5 ∧
    ¬(1 ≤ (houghSweep hough0).length ∧ (houghSweep hough0).length ≤ 4) ∧
    (houghSweepIdealRange hough0 param2_values none).length = 2 ∧
    houghSweep hough0 ≠ houghSweepIdealRange hough0 param2_values none ∧
    ¬ List.Pairwise (fun a b : Int => b < a) param2_values := by
  refine ⟨by decide, by decide, by decide, by decide, by decide⟩

theorem houghSweepGo_all_empty (hough : Int → List Circle)
    (schedule : List Int) (h : ∀ q ∈ schedule, hough q = []) :
    houghSweepGo hough schedule = [] := by
  induction schedule with
  | nil => rfl
  | cons p rest ih =>
      unfold houghSweepGo
      have hp : hough p = [] := h p (by simp)
      simp only [hp, List.isEmpty_nil, if_true]
      exact ih fun q hq => h q (by simp [hq])

theorem houghSweepGo_first_nonempty (hough : Int → List Circle)
    (pre : List Int) (p : Int) (post : List Int)
    (hpre : ∀ q ∈ pre, hough q = []) (hp : hough p ≠ []) :
    houghSweepGo hough (pre ++ p :: post) = hough p := by
  induction pre with
  | nil =>
      unfold houghSweepGo
      simp only [List.nil_append]
      rw [if_neg]
      simpa [List.isEmpty_iff] using hp
  | cons q rest ih =>
      have hq : hough q = [] := hpre q (by simp)
      show houghSweepGo hough (q :: (rest ++ p :: post)) = hough p
      unfold houghSweepGo
      simp only [hq, List.isEmpty_nil, if_true]
      exact ih fun r hr => hpre r (by simp [hr])

/-- C5 as amended: the sweep runs the circular-shape accumulator
transform over the fixed schedule `param2 = 10, 8, 12, 15, 7, 6, 5`
(which is not monotonically decreasing) and stops at the first setting
that yields any circles at all, keeping that result; when every setting
yields nothing the result is empty.  There is no ideal-range stopping
rule. -/
theorem houghSweep_first_nonempty (hough : Int → List Circle) :
    ((∀ q ∈ param2_values, hough q = []) → houghSweep hough = []) ∧
    (∀ pre p post, param2_values = pre ++ p :: post →
      (∀ q ∈ pre, hough q = []) → hough p ≠ [] →
      houghSweep hough = hough p) := by
  constructor
  · intro h
    exact houghSweepGo_all_empty hough param2_values h
  · intro pre p post hsched hpre hp
    unfold houghSweep
    rw [hsched]
    exact houghSweepGo_first_nonempty hough pre p post hpre hp

/-- Witness for the amended C5 theorem: with `hough0`, the sweep keeps
the first (five-candidate) result. -/
theorem houghSweep_first_nonempty_witness :
    houghSweep hough0 = hough0 10 := by
  have h := (houghSweep_first_nonempty hough0).2 [] 10 [8, 12, 15, 7, 6, 5]
    rfl (by simp) (by decide)
  simpa using h

/-! ## C6: directional impact detection -/

/-- C6: `detect_impact` returns true iff the coordinate difference along
the configured down-range axis, multiplied by the direction sign, is
strictly greater than the threshold.  Displacement against the
configured direction (nonpositive signed movement) never triggers for a
nonnegative threshold, regardless of magnitude, and the coordinates of
the non-configured axis never influence the outcome. -/
theorem detect_impact_characterization
    (prev_x prev_y curr_x curr_y threshold axis direction : Int)
    (hthr : 0 ≤ threshold) :
    (detect_impact prev_x prev_y curr_x curr_y threshold axis direction = true ↔
      threshold <
        (if axis = 0 then (curr_x - prev_x) * direction
         else (curr_y - prev_y) * direction)) ∧
    ((if axis = 0 then (curr_x - prev_x) * direction
      else (curr_y - prev_y) * direction) ≤ 0 →
      detect_impact prev_x prev_y curr_x curr_y threshold axis direction = false) ∧
    (axis = 0 → ∀ py2 cy2,
      detect_impact prev_x py2 curr_x cy2 threshold axis direction =
        detect_impact prev_x prev_y curr_x curr_y threshold axis direction) ∧
    (axis ≠ 0 → ∀ px2 cx2,
      detect_impact px2 prev_y cx2 curr_y threshold axis direction =
        detect_impact prev_x prev_y curr_x curr_y threshold axis direction) := by
  by_cases ha : axis = 0 <;>
    simp only [detect_impact, ha, if_true, if_false, ne_eq, not_true_eq_false,
      not_false_eq_true, if_pos, if_neg] <;>
    refine ⟨by simp, fun hle => by simp; omega, ?_, ?_⟩ <;>
    intro h <;> simp_all

/-- Witness for C6: a 50-pixel move in the positive Y direction against
a 30-pixel threshold triggers. -/
theorem detect_impact_characterization_witness :
    detect_impact 0 0 0 50 30 1 1 = true := by
  have h := detect_impact_characterization 0 0 0 50 30 1 1 (by norm_num)
  exact h.1.mpr (by norm_num)

/-! ## C8: de-duplication of concentric candidates -/

theorem isDuplicateCenter_append (u v : List (Int × Int)) (x y : Int) :
    isDuplicateCenter (u ++ v) x y =
      (isDuplicateCenter u x y || isDuplicateCenter v x y) := by
  unfold isDuplicateCenter
  exact List.any_append

theorem removeConcentricGo_not_dup (circles : List Circle)
    (used : List (Int × Int)) (c : Circle)
    (hc : c ∈ removeConcentricGo circles used) :
    isDuplicateCenter used (cvRound c.x) (cvRound c.y) = false := by
  induction circles generalizing used with
  | nil => simp [removeConcentricGo] at hc
  | cons c0 rest ih =>
      unfold removeConcentricGo at hc
      by_cases hd : isDuplicateCenter used (cvRound c0.x) (cvRound c0.y)
      · rw [if_pos hd] at hc
        exact ih used hc
      · rw [if_neg (by simpa using hd)] at hc
        rcases List.mem_cons.mp hc with hceq | hmem
        · subst hceq
          simpa using hd
        · have h2 := ih (used ++ [(cvRound c0.x, cvRound c0.y)]) hmem
          rw [isDuplicateCenter_append] at h2
          exact (Bool.or_eq_false_iff.mp h2).1

theorem removeConcentricGo_pairwise (circles : List Circle)
    (used : List (Int × Int)) :
    List.Pairwise (fun a b => ¬ withinTol a b)
      (removeConcentricGo circles used) := by
  induction circles generalizing used with
  | nil => exact List.Pairwise.nil
  | cons c0 rest ih =>
      unfold removeConcentricGo
      by_cases hd : isDuplicateCenter used (cvRound c0.x) (cvRound c0.y)
      · rw [if_pos hd]
        exact ih used
      · rw [if_neg (by simpa using hd)]
        refine List.Pairwise.cons ?_ (ih _)
        intro b hb htol
        have h2 := removeConcentricGo_not_dup rest _ b hb
        rw [isDuplicateCenter_append] at h2
        have h3 := (Bool.or_eq_false_iff.mp h2).2
        unfold isDuplicateCenter at h3
        simp only [List.any_cons, List.any_nil, Bool.or_false,
          Bool.and_eq_false_iff, decide_eq_false_iff_not] at h3
        obtain ⟨htx, hty⟩ := htol
        rcases h3 with h3 | h3 <;> exact h3 (by omega)

theorem removeConcentricGo_cover (circles : List Circle)
    (used : List (Int × Int)) (c : Circle) (hc : c ∈ circles) :
    (∃ rep ∈ removeConcentricGo circles used, withinTol c rep) ∨
      isDuplicateCenter used (cvRound c.x) (cvRound c.y) = true := by
  induction circles generalizing used with
  | nil => simp at hc
  | cons c0 rest ih =>
      unfold removeConcentricGo
      by_cases hd : isDuplicateCenter used (cvRound c0.x) (cvRound c0.y)
      · rw [if_pos hd]
        rcases List.mem_cons.mp hc with hceq | hmem
        · subst hceq
          exact Or.inr hd
        · exact ih used hmem
      · rw [if_neg (by simpa using hd)]
        rcases List.mem_cons.mp hc with hceq | hmem
        · subst hceq
          refine Or.inl ⟨c, List.mem_cons_self _ _, ?_⟩
          constructor <;> simp
        · rcases ih (used ++ [(cvRound c0.x, cvRound c0.y)]) hmem with
            ⟨rep, hrep, htol⟩ | hdup
          · exact Or.inl ⟨rep, List.mem_cons_of_mem _ hrep, htol⟩
          · rw [isDuplicateCenter_append] at hdup
            rcases Bool.or_eq_true_iff.mp hdup with h | h
            · exact Or.inr h
            · refine Or.inl ⟨c0, List.mem_cons_self _ _, ?_⟩
              unfold isDuplicateCenter at h
              simp only [List.any_cons, List.any_nil, Bool.or_false,
                Bool.and_eq_true, decide_eq_true_eq] at h
              exact h

/-- C8: after the concentric-removal pass of `detect_ball`, (i) no two
retained candidates have rounded centers within the 10-pixel merge
tolerance of each other (both axis distances under 10 px — the per-axis
test the code uses), and (ii) every input detection is within the merge
tolerance of some retained representative; together with (i), any two
detections within tolerance of one another can contribute at most one
retained representative. -/
theorem removeConcentric_separation (circles : List Circle) :
    List.Pairwise (fun a b => ¬ withinTol a b) (removeConcentric circles) ∧
    ∀ c ∈ circles, ∃ rep ∈ removeConcentric circles, withinTol c rep := by
  constructor
  · exact removeConcentricGo_pairwise circles []
  · intro c hc
    rcases removeConcentricGo_cover circles [] c hc with h | h
    · exact h
    · simp [isDuplicateCenter] at h

/-- Witness for C8: a detection 5 px away from an earlier one collapses
onto a retained representative. -/
theorem removeConcentric_separation_witness :
    ∃ rep ∈ removeConcentric [⟨0, 0, 30⟩, ⟨5, 5, 30⟩, ⟨100, 0, 30⟩],
      withinTol ⟨5, 5, 30⟩ rep := by
  exact (removeConcentric_separation _).2 ⟨5, 5, 30⟩ (by simp)

/-! ## C7: invalid exposure measurement leaves state untouched -/

theorem measureBrightnessRect_degenerate (s : AEState)
    (pix : Int → Int → ℚ) (width height : Int)
    (h : degenerateRegion s width height) :
    measureBrightnessRect s pix width height = ⟨0, 0, 0, false⟩ := by
  unfold measureBrightnessRect
  rw [if_pos]
  exact h

theorem measureBrightness_shutter_gain_history (s : AEState)
    (frame : Option (Int → Int → ℚ)) (width height : Int) :
    (measureBrightness s frame width height).1.current_shutter =
        s.current_shutter ∧
    (measureBrightness s frame width height).1.current_gain =
        s.current_gain ∧
    (measureBrightness s frame width height).1.brightness_history =
        s.brightness_history ∧
    (measureBrightness s frame width height).1.history_count =
        s.history_count ∧
    (measureBrightness s frame width height).1.history_index =
        s.history_index := by
  cases frame with
  | none => exact ⟨rfl, rfl, rfl, rfl, rfl⟩
  | some pix =>
      unfold measureBrightness zoneDefaulted
      dsimp only
      split_ifs <;> exact ⟨rfl, rfl, rfl, rfl, rfl⟩

theorem measureBrightness_invalid (s : AEState)
    (frame : Option (Int → Int → ℚ)) (width height : Int)
    (h : frame = none ∨ degenerateRegion (zoneDefaulted s width height) width height) :
    (measureBrightness s frame width height).2.valid = false := by
  rcases h with h | h
  · subst h; rfl
  · cases frame with
    | none => rfl
    | some pix =>
        show (measureBrightnessRect (zoneDefaulted s width height) pix
          width height).valid = false
        rw [measureBrightnessRect_degenerate _ _ _ _ h]

/-- C7: when a call to `update` reaches the brightness measurement (auto
mode enabled or forced, and not rate-limited) and the measurement is
degenerate — null frame pointer or a clipped measurement region with
zero pixels — the result reports reason `invalid_measurement` with
`adjusted = false`, and the controller's exposure state is untouched:
current shutter, current gain, and the brightness-history ring (its
contents, fill count and write index) are exactly as before the call. -/
theorem aeUpdate_invalid_measurement (s : AEState)
    (frame : Option (Int → Int → ℚ)) (width height : Int)
    (force : Bool) (now : ℚ)
    (hgate : force = true ∨
      (s.auto_enabled = true ∧
        s.min_adjustment_interval ≤ now - s.last_adjustment_time))
    (hdeg : frame = none ∨
      degenerateRegion (zoneDefaulted s width height) width height) :
    (aeUpdate s frame width height force now).2.reason =
        "invalid_measurement" ∧
    (aeUpdate s frame width height force now).2.adjusted = false ∧
    (aeUpdate s frame width height force now).1.current_shutter =
        s.current_shutter ∧
    (aeUpdate s frame width height force now).1.current_gain =
        s.current_gain ∧
    (aeUpdate s frame width height force now).1.brightness_history =
        s.brightness_history ∧
    (aeUpdate s frame width height force now).1.history_count =
        s.history_count ∧
    (aeUpdate s frame width height force now).1.history_index =
        s.history_index := by
  have hvalid := measureBrightness_invalid s frame width height hdeg
  have hpres := measureBrightness_shutter_gain_history s frame width height
  unfold aeUpdate
  dsimp only
  have hgate1 : (!s.auto_enabled && !force) = false := by
    rcases hgate with h | h
    · simp [h]
    · simp [h.1]
  have hgate2 :
      (!force && decide (now - s.last_adjustment_time <
        s.min_adjustment_interval)) = false := by
    rcases hgate with h | h
    · simp [h]
    · cases force <;> simp
      linarith [h.2]
  rw [hgate1, hgate2]
  simp only [Bool.false_eq_true, if_false, hvalid, Bool.not_false, if_true]
  exact ⟨trivial, trivial, hpres.1, hpres.2.1, hpres.2.2.1, hpres.2.2.2.1,
    hpres.2.2.2.2⟩

/-- Witness for C7: a forced update on the initial controller state with
a 0×0 frame (zero-pixel region) reports `invalid_measurement` and keeps
the 800 µs shutter. -/
theorem aeUpdate_invalid_measurement_witness :
    (aeUpdate aeInitial (some fun _ _ => 0) 0 0 true 1).2.reason =
        "invalid_measurement" ∧
    (aeUpdate aeInitial (some fun _ _ => 0) 0 0 true 1).1.current_shutter =
        800 := by
  have h := aeUpdate_invalid_measurement aeInitial (some fun _ _ => 0) 0 0
    true 1 (Or.inl rfl)
    (Or.inr (by norm_num [degenerateRegion, zoneDefaulted, aeInitial]))
  exact ⟨h.1, h.2.2.1⟩

/-! ## C10: uncalibrated coordinate transforms -/

/-- A concrete uncalibrated configuration. -/
def calibNone : Calib :=
  { isIntrinsicCalibrated := false, isExtrinsicCalibrated := false,
    undistort := id, homography := id, project := fun _ => (1, 1) }

/-- C10: without extrinsic calibration, `pixelToWorld` returns the world
origin for every pixel and assumed height and `worldToPixel` returns the
pixel origin for every world point.  Both functions return a bare point
— there is no error or failure channel in their types — so a caller
cannot tell the uncalibrated answer from a genuine point at the
origin. -/
theorem uncalibrated_transforms (c : Calib) (pixel : ℚ × ℚ)
    (assumedHeight : ℚ) (worldPoint : ℚ × ℚ × ℚ)
    (hcal : c.isExtrinsicCalibrated = false) :
    pixelToWorld c pixel assumedHeight = (0, 0, 0) ∧
    worldToPixel c worldPoint = (0, 0) := by
  constructor
  · unfold pixelToWorld
    rw [hcal]
    rfl
  · unfold worldToPixel
    rw [hcal]
    rfl

/-- Witness for C10 at a concrete uncalibrated configuration. -/
theorem uncalibrated_transforms_witness :
    pixelToWorld calibNone (3, 4) 7 = (0, 0, 0) ∧
    worldToPixel calibNone (5, 6, 7) = (0, 0) :=
  uncalibrated_transforms calibNone (3, 4) 7 (5, 6, 7) rfl

end PRGR
